import Mathlib

set_option maxRecDepth 100000

/-
Verification of the alef-dashboard request-dispatch and response-caching
layer: the speech-synthesis (TTS) gateway route handler and the BI query
proxy route handler, shallowly embedded from the TypeScript source.

The TTS gateway (src/unnamed/part_000) keeps a process-wide
`Map<string, ArrayBuffer>` cache, bounded at 50 entries, with a 5-minute
per-entry expiry timer.  The BI gateway (src/app/api/bi/query/route.ts)
forwards the parsed JSON body to a fixed upstream endpoint and maps axios
failures onto a small error taxonomy.

Byte buffers are embedded as `List Nat`; strings as Lean `String`
(JavaScript `slice(0, 100)` on UTF-16 units becomes `String.take · 100`
on characters, which agrees on the Basic Multilingual Plane).  The
nondeterministic environment of a handler invocation (did the body parse,
is the credential set, what did the upstream return) is passed in
explicitly, and the handler's result records the response, the updated
cache, and how many upstream calls were made.
-/

/-- Raw audio byte buffer (`ArrayBuffer` in the source). -/
abbrev AudioBuffer := List Nat

/-- The TTS cache: `const ttsCache = new Map<string, ArrayBuffer>()`,
embedded as an association list with JS-`Map` operations below. -/
abbrev Cache := List (String × AudioBuffer)

/-- `Map.get` / `Map.has`: the value stored at `k`, if any. -/
def mapGet (c : Cache) (k : String) : Option AudioBuffer :=
  (c.find? (fun e => e.1 == k)).map (fun e => e.2)

/-- `Map.set`: replace the value at an existing key in place, otherwise
append the new binding in insertion order. -/
def mapSet (c : Cache) (k : String) (v : AudioBuffer) : Cache :=
  if (mapGet c k).isSome then
    c.map (fun e => if e.1 == k then (k, v) else e)
  else
    c ++ [(k, v)]

/-- `Map.delete`: remove the binding for `k`. -/
def mapDelete (c : Cache) (k : String) : Cache :=
  c.filter (fun e => e.1 != k)

/-- `const MAX_CACHE_SIZE = 50` in src/unnamed/part_000. -/
def MAX_CACHE_SIZE : Nat := 50

/-- `const CACHE_TTL = 5 * 60 * 1000` (milliseconds) in src/unnamed/part_000. -/
def CACHE_TTL : Nat := 5 * 60 * 1000

/-- The default voice: `voice_id = "pNInz6obpgDQGcFmaJgB"` in the
destructuring of the request body. -/
def defaultVoiceId : String := "pNInz6obpgDQGcFmaJgB"

/-- `const cacheKey = voice_id + "_" + text.slice(0, 100)`. -/
def cacheKey (voice_id : String) (text : String) : String :=
  voice_id ++ "_" ++ text.take 100

/-- The fields the TTS handler destructures from the parsed JSON body.
`none` models an absent field (JavaScript `undefined`). -/
structure TTSRequest where
  text : Option String
  voice_id : Option String
deriving Repr, DecidableEq

/-- Outcome of `await request.json()` in the TTS handler: either the body
fails to parse (the `await` throws, landing in the catch-all) or it
parses to an object whose relevant fields are in `TTSRequest`. -/
inductive TTSBody where
  | invalid
  | valid (req : TTSRequest)
deriving Repr, DecidableEq

/-- Behaviour of the ElevenLabs `fetch`, should the handler reach it:
either `response.ok` with an audio buffer, or a non-2xx status. -/
inductive UpstreamTTS where
  | success (audio : AudioBuffer)
  | failure (status : Nat)
deriving Repr, DecidableEq

/-- Response bodies the TTS handler can produce: a binary audio body, or
a `NextResponse.json({ error: msg })` body. -/
inductive TTSRespBody where
  | audio (buf : AudioBuffer)
  | jsonError (error : String)
deriving Repr, DecidableEq

/-- Result of one TTS handler invocation: HTTP status and body of the
response, the cache state after the call, and the number of upstream
synthesis calls made (0 or 1). -/
structure TTSResult where
  status : Nat
  body : TTSRespBody
  cache : Cache
  upstreamCalls : Nat
deriving Repr, DecidableEq

/-- The `POST` handler of src/unnamed/part_000, line for line:
parse the body (a parse failure lands in the catch-all, 500
"Failed to generate speech"); reject falsy `text` with 400; build the
cache key; serve a cache hit; reject a missing `ELEVENLABS_API_KEY` with
500; call the upstream; a non-ok upstream response throws into the
catch-all (500); on success, store in the cache only when
`ttsCache.size < MAX_CACHE_SIZE`, and return the audio. -/
def ttsPOST (body : TTSBody) (apiKey : Option String) (upstream : UpstreamTTS)
    (cache : Cache) : TTSResult :=
  match body with
  | .invalid => ⟨500, .jsonError "Failed to generate speech", cache, 0⟩
  | .valid req =>
    if req.text.getD "" = "" then
      ⟨400, .jsonError "Text is required", cache, 0⟩
    else
      match mapGet cache (cacheKey (req.voice_id.getD defaultVoiceId) (req.text.getD "")) with
      | some cached => ⟨200, .audio cached, cache, 0⟩
      | none =>
        match apiKey with
        | none => ⟨500, .jsonError "ElevenLabs API key not configured", cache, 0⟩
        | some _ =>
          match upstream with
          | .failure _ => ⟨500, .jsonError "Failed to generate speech", cache, 1⟩
          | .success audio =>
            let cache2 :=
              if cache.length < MAX_CACHE_SIZE then
                mapSet cache (cacheKey (req.voice_id.getD defaultVoiceId) (req.text.getD "")) audio
              else cache
            ⟨200, .audio audio, cache2, 1⟩

/-- Events that mutate the TTS cache over time: a handler invocation, or
the firing of the `setTimeout(() => ttsCache.delete(cacheKey), CACHE_TTL)`
timer scheduled for a stored entry. -/
inductive GatewayEvent where
  | request (body : TTSBody) (apiKey : Option String) (upstream : UpstreamTTS)
  | expire (key : String)
deriving Repr

/-- One step of the cache's lifetime: serve a request, or fire an expiry
timer for a key. -/
def stepCache (c : Cache) : GatewayEvent → Cache
  | .request b k u => (ttsPOST b k u c).cache
  | .expire key => mapDelete c key

/-- A JSON value, as relayed opaquely by the BI gateway. -/
inductive Json where
  | str (s : String)
  | num (n : Int)
  | bool (b : Bool)
  | null
  | arr (xs : List Json)
  | obj (fields : List (String × Json))

/-- `"http://52.3.202.231:8080/bi/query"`, the fixed upstream address in
src/app/api/bi/query/route.ts. -/
def BI_ENDPOINT : String := "http://52.3.202.231:8080/bi/query"

/-- The headers of the axios call: JSON content negotiation. -/
def biHeaders : List (String × String) :=
  [("Content-Type", "application/json"), ("Accept", "application/json")]

/-- The HTTP request the BI gateway issues upstream (`axios.post(url,
body, { headers })`). -/
structure ForwardedRequest where
  url : String
  headers : List (String × String)
  body : Json

/-- Behaviour of the axios call, should the handler reach it: a 2xx
response with data; a thrown `AxiosError` with `error.response` set (the
upstream answered with an error status); a thrown `AxiosError` with only
`error.request` (no response received); or any other thrown error. -/
inductive UpstreamBI where
  | success (d : Json)
  | errorResponse (status : Nat) (d : Json)
  | noResponse
  | otherFault

/-- Result of one BI handler invocation: response status and JSON body,
plus the request forwarded upstream (`none` when axios was never
reached). -/
structure BIResult where
  status : Nat
  body : Json
  forwarded : Option ForwardedRequest

/-- The `POST` handler of src/app/api/bi/query/route.ts: parse the body
(a throwing `await request.json()` is a non-axios error and falls to the
final 500), forward it verbatim to `BI_ENDPOINT`, relay `response.data`
on success; on a thrown axios error with `error.response` relay the
upstream status with `{ error: "Server error", details }`; with only
`error.request`, 502 `{ error: "No response from server" }`; anything
else, 500 `{ error: "Internal server error" }`. -/
def biPOST (parsed : Option Json) (outcome : UpstreamBI) : BIResult :=
  match parsed with
  | none => ⟨500, Json.obj [("error", Json.str "Internal server error")], none⟩
  | some b =>
    match outcome with
    | .success d => ⟨200, d, some ⟨BI_ENDPOINT, biHeaders, b⟩⟩
    | .errorResponse s d =>
        ⟨s, Json.obj [("error", Json.str "Server error"), ("details", d)],
          some ⟨BI_ENDPOINT, biHeaders, b⟩⟩
    | .noResponse =>
        ⟨502, Json.obj [("error", Json.str "No response from server")],
          some ⟨BI_ENDPOINT, biHeaders, b⟩⟩
    | .otherFault =>
        ⟨500, Json.obj [("error", Json.str "Internal server error")],
          some ⟨BI_ENDPOINT, biHeaders, b⟩⟩

section CacheLemmas

/-- After `Map.set c k v`, looking up `k` yields `v`. -/
theorem mapGet_mapSet_self (c : Cache) (k : String) (v : AudioBuffer) :
    mapGet (mapSet c k v) k = some v := by
  unfold mapSet
  by_cases h : (mapGet c k).isSome
  · simp only [h, if_pos]
    induction c with
    | nil => simp [mapGet] at h
    | cons e rest ih =>
      by_cases he : e.1 == k
      · simp [mapGet, List.find?, he]
      · have h' : (mapGet rest k).isSome := by
          simpa [mapGet, List.find?, he] using h
        have := ih h'
        simpa [mapGet, List.find?, he] using this
  · simp only [h, if_neg, Bool.false_eq_true, not_false_eq_true]
    have hnone : c.find? (fun e => e.1 == k) = none := by
      cases hf : c.find? (fun e => e.1 == k) with
      | none => rfl
      | some e => simp [mapGet, hf] at h
    simp [mapGet, List.find?_append, hnone, List.find?]

/-- `Map.set` grows the map by at most one entry. -/
theorem length_mapSet_le (c : Cache) (k : String) (v : AudioBuffer) :
    (mapSet c k v).length ≤ c.length + 1 := by
  unfold mapSet
  by_cases h : (mapGet c k).isSome <;> simp [h]

/-- After `Map.delete c k`, looking up `k` misses. -/
theorem mapGet_mapDelete_self (c : Cache) (k : String) :
    mapGet (mapDelete c k) k = none := by
  unfold mapGet mapDelete
  rw [List.find?_eq_none.mpr]
  · rfl
  · intro e he hpe
    have := (List.mem_filter.mp he).2
    simp only [bne_iff_ne, ne_eq] at this
    exact this (by simpa using hpe)

/-- `Map.delete c k` leaves every other key's binding unchanged. -/
theorem mapGet_mapDelete_ne (c : Cache) (k k' : String) (h : k' ≠ k) :
    mapGet (mapDelete c k) k' = mapGet c k' := by
  unfold mapGet mapDelete
  induction c with
  | nil => rfl
  | cons e rest ih =>
    rcases eq_or_ne e.1 k with hk | hk
    · have hek' : (e.1 == k') = false := by
        rw [beq_eq_false_iff_ne]
        intro hc
        exact h (by rw [← hc, hk])
      have hbne : (e.1 != k) = false := by simp [bne, hk]
      simp only [List.filter_cons, hbne, Bool.false_eq_true, if_false,
        List.find?_cons, hek', ih]
    · have hbne : (e.1 != k) = true := by simp [bne, hk]
      simp only [List.filter_cons, hbne, if_true, List.find?_cons]
      cases hek' : (e.1 == k') with
      | true => rfl
      | false => exact ih

/-- `Map.delete` never grows the map. -/
theorem length_mapDelete_le (c : Cache) (k : String) :
    (mapDelete c k).length ≤ c.length :=
  List.length_filter_le _ c

end CacheLemmas

/-- The data of the one-character string `"_"`. -/
theorem data_underscore : ("_" : String).data = ['_'] := rfl

/-- Splitting a list at a separator character absent from both left
parts is unambiguous. -/
theorem append_underscore_inj (l1 r1 l2 r2 : List Char)
    (h1 : '_' ∉ l1) (h2 : '_' ∉ l2)
    (h : l1 ++ '_' :: r1 = l2 ++ '_' :: r2) : l1 = l2 ∧ r1 = r2 := by
  induction l1 generalizing l2 with
  | nil =>
    cases l2 with
    | nil => simpa using h
    | cons b bs =>
      rw [List.nil_append, List.cons_append] at h
      injection h with hb _
      subst hb
      exact absurd (List.mem_cons_self _ _) h2
  | cons a as ih =>
    cases l2 with
    | nil =>
      rw [List.nil_append, List.cons_append] at h
      injection h with ha _
      subst ha
      exact absurd (List.mem_cons_self _ _) h1
    | cons b bs =>
      rw [List.cons_append, List.cons_append] at h
      injection h with hab ht
      have h1' : '_' ∉ as := fun hm => h1 (List.mem_cons_of_mem _ hm)
      have h2' : '_' ∉ bs := fun hm => h2 (List.mem_cons_of_mem _ hm)
      obtain ⟨he, hr⟩ := ih bs h1' h2' ht
      exact ⟨by rw [hab, he], hr⟩

/-- The same separator lemma, in the association produced by
`String.data_append`. -/
theorem append_underscore_inj2 (l1 r1 l2 r2 : List Char)
    (h1 : '_' ∉ l1) (h2 : '_' ∉ l2)
    (h : (l1 ++ ['_']) ++ r1 = (l2 ++ ['_']) ++ r2) : l1 = l2 ∧ r1 = r2 := by
  rw [List.append_assoc, List.append_assoc, List.singleton_append,
    List.singleton_append] at h
  exact append_underscore_inj l1 r1 l2 r2 h1 h2 h

section HandlerLemmas

/-- A valid request with non-empty text whose key is cached is served
from the cache: 200, the cached bytes, no upstream call, cache
untouched. -/
theorem ttsPOST_hit (req : TTSRequest) (t : String) (apiKey : Option String)
    (u : UpstreamTTS) (c : Cache) (a : AudioBuffer)
    (htext : req.text = some t) (hne : t ≠ "")
    (hkey : mapGet c (cacheKey (req.voice_id.getD defaultVoiceId) t) = some a) :
    ttsPOST (.valid req) apiKey u c = ⟨200, .audio a, c, 0⟩ := by
  have hgd : req.text.getD "" = t := by rw [htext]; rfl
  simp only [ttsPOST, hgd]
  rw [if_neg hne, hkey]

/-- A cache miss with the credential set and a successful upstream call:
200 with the fresh audio; the entry is stored only below the size cap. -/
theorem ttsPOST_miss_success (req : TTSRequest) (t apiKey : String)
    (audio : AudioBuffer) (c : Cache)
    (htext : req.text = some t) (hne : t ≠ "")
    (hkey : mapGet c (cacheKey (req.voice_id.getD defaultVoiceId) t) = none) :
    ttsPOST (.valid req) (some apiKey) (.success audio) c =
      ⟨200, .audio audio,
        if c.length < MAX_CACHE_SIZE then
          mapSet c (cacheKey (req.voice_id.getD defaultVoiceId) t) audio
        else c, 1⟩ := by
  have hgd : req.text.getD "" = t := by rw [htext]; rfl
  simp only [ttsPOST, hgd]
  rw [if_neg hne, hkey]

/-- A cache miss with the credential set and a failing upstream call:
the thrown error lands in the catch-all, nothing is cached. -/
theorem ttsPOST_miss_failure (req : TTSRequest) (t apiKey : String)
    (s : Nat) (c : Cache)
    (htext : req.text = some t) (hne : t ≠ "")
    (hkey : mapGet c (cacheKey (req.voice_id.getD defaultVoiceId) t) = none) :
    ttsPOST (.valid req) (some apiKey) (.failure s) c =
      ⟨500, .jsonError "Failed to generate speech", c, 1⟩ := by
  have hgd : req.text.getD "" = t := by rw [htext]; rfl
  simp only [ttsPOST, hgd]
  rw [if_neg hne, hkey]

/-- Handling any event never pushes the cache above the size cap. -/
theorem ttsPOST_cache_length_le (b : TTSBody) (k : Option String)
    (u : UpstreamTTS) (c : Cache) (h : c.length ≤ MAX_CACHE_SIZE) :
    (ttsPOST b k u c).cache.length ≤ MAX_CACHE_SIZE := by
  cases b with
  | invalid => exact h
  | valid req =>
    by_cases ht : req.text.getD "" = ""
    · simpa [ttsPOST, ht] using h
    · cases hkey : mapGet c (cacheKey (req.voice_id.getD defaultVoiceId) (req.text.getD "")) with
      | some a => simpa [ttsPOST, ht, hkey] using h
      | none =>
        cases k with
        | none => simpa [ttsPOST, ht, hkey] using h
        | some key =>
          cases u with
          | failure s => simpa [ttsPOST, ht, hkey] using h
          | success audio =>
            simp only [ttsPOST, hkey]
            rw [if_neg ht]
            by_cases hlt : c.length < MAX_CACHE_SIZE
            · simp only [hlt, if_pos]
              have h2 := length_mapSet_le c
                (cacheKey (req.voice_id.getD defaultVoiceId) (req.text.getD "")) audio
              omega
            · simpa [hlt] using h

end HandlerLemmas

/-- C7 (amended): the cache key `voice_id ++ "_" ++ text.take 100` is
injective on (voice identifier, 100-character text prefix) pairs
provided the voice identifiers contain no underscore: two requests then
read or write the same cache entry iff they agree on voice and prefix.
(Unrestricted injectivity fails; see the counterexample.) -/
theorem tts_cacheKey_injective_no_underscore (v1 t1 v2 t2 : String)
    (h1 : '_' ∉ v1.data) (h2 : '_' ∉ v2.data) :
    cacheKey v1 t1 = cacheKey v2 t2 ↔ (v1 = v2 ∧ t1.take 100 = t2.take 100) := by
  constructor
  · intro h
    have hd := congrArg String.data h
    simp only [cacheKey, String.data_append, data_underscore] at hd
    obtain ⟨hv, ht⟩ := append_underscore_inj2 v1.data (t1.take 100).data v2.data
      (t2.take 100).data h1 h2 hd
    exact ⟨String.ext hv, String.ext ht⟩
  · rintro ⟨rfl, ht⟩
    rw [cacheKey, cacheKey, ht]

/-- C7 counterexample: with an underscore inside the voice identifier the
key function conflates distinct (voice, prefix) pairs: voice `"a_b"` with
text `"c"` and voice `"a"` with text `"b_c"` collide on the key
`"a_b_c"`, so distinct pairs can share one cache entry. -/
theorem tts_cacheKey_collision :
    cacheKey "a_b" "c" = cacheKey "a" "b_c" ∧
    ¬ (("a_b" : String) = "a" ∧ ("c" : String).take 100 = ("b_c" : String).take 100) := by
  constructor
  · decide
  · decide

/-- C7 witness: concrete use of the injectivity theorem: underscore-free
voices `"va"` and `"vb"` with equal texts get distinct keys. -/
theorem tts_cacheKey_injective_witness :
    cacheKey "va" "x" ≠ cacheKey "vb" "x" := fun h =>
  absurd ((tts_cacheKey_injective_no_underscore "va" "x" "vb" "x"
    (by decide) (by decide)).mp h).1 (by decide)

/-- C10: a body that fails JSON parsing lands in the catch-all: HTTP 500
with `{ error: "Failed to generate speech" }` (not 400), no upstream
call, cache untouched. -/
theorem tts_invalid_body_500 (apiKey : Option String) (u : UpstreamTTS) (c : Cache) :
    ttsPOST .invalid apiKey u c =
      ⟨500, .jsonError "Failed to generate speech", c, 0⟩ := rfl

/-- C5: a parsed body whose `text` is missing or empty yields HTTP 400
`{ error: "Text is required" }`, never reaches the upstream, and leaves
the cache unchanged, whatever the cache and credential state. -/
theorem tts_missing_text_400 (req : TTSRequest) (apiKey : Option String)
    (u : UpstreamTTS) (c : Cache) (h : req.text.getD "" = "") :
    ttsPOST (.valid req) apiKey u c =
      ⟨400, .jsonError "Text is required", c, 0⟩ := by
  simp [ttsPOST, h]

/-- C5 witness: the missing-text case at a concrete input. -/
theorem tts_missing_text_400_witness :
    ttsPOST (.valid ⟨none, none⟩) none (.success []) [] =
      ⟨400, .jsonError "Text is required", [], 0⟩ :=
  tts_missing_text_400 ⟨none, none⟩ none (.success []) [] rfl

/-- C4: when the handler reaches the upstream (non-empty text, cache
miss, credential set) and the upstream answers non-2xx, the thrown error
lands in the catch-all: HTTP 500 with a JSON error body and the cache
left unchanged. -/
theorem tts_upstream_failure_500 (req : TTSRequest) (t apiKey : String)
    (s : Nat) (c : Cache)
    (htext : req.text = some t) (hne : t ≠ "")
    (hkey : mapGet c (cacheKey (req.voice_id.getD defaultVoiceId) t) = none) :
    ttsPOST (.valid req) (some apiKey) (.failure s) c =
      ⟨500, .jsonError "Failed to generate speech", c, 1⟩ :=
  ttsPOST_miss_failure req t apiKey s c htext hne hkey

/-- C4 witness: a concrete upstream 404 on an empty cache. -/
theorem tts_upstream_failure_500_witness :
    ttsPOST (.valid ⟨some "hi", none⟩) (some "key") (.failure 404) [] =
      ⟨500, .jsonError "Failed to generate speech", [], 1⟩ :=
  tts_upstream_failure_500 ⟨some "hi", none⟩ "hi" "key" 404 [] rfl (by decide) rfl

/-- C6 (amended): with non-empty text and an absent credential the
gateway answers HTTP 500 `{ error: "ElevenLabs API key not configured" }`
without calling the upstream, provided the request misses the cache (a
cache hit is served before the credential is consulted; see the
counterexample). -/
theorem tts_missing_credential_500 (req : TTSRequest) (t : String)
    (u : UpstreamTTS) (c : Cache)
    (htext : req.text = some t) (hne : t ≠ "")
    (hkey : mapGet c (cacheKey (req.voice_id.getD defaultVoiceId) t) = none) :
    ttsPOST (.valid req) none u c =
      ⟨500, .jsonError "ElevenLabs API key not configured", c, 0⟩ := by
  have hgd : req.text.getD "" = t := by rw [htext]; rfl
  simp only [ttsPOST, hgd]
  rw [if_neg hne, hkey]

/-- C6 witness: absent credential on an empty cache at a concrete input. -/
theorem tts_missing_credential_500_witness :
    ttsPOST (.valid ⟨some "hi", none⟩) none (.success []) [] =
      ⟨500, .jsonError "ElevenLabs API key not configured", [], 0⟩ :=
  tts_missing_credential_500 ⟨some "hi", none⟩ "hi" (.success []) [] rfl (by decide) rfl

/-- C6 counterexample: the cache is checked before the credential, so
with the key already cached and no credential configured the gateway
returns 200 with the cached audio, not 500. -/
theorem tts_hit_without_credential_200 :
    (ttsPOST (.valid ⟨some "hi", none⟩) none (.success [1])
        [(cacheKey defaultVoiceId "hi", [9])]).status = 200 ∧
    (ttsPOST (.valid ⟨some "hi", none⟩) none (.success [1])
        [(cacheKey defaultVoiceId "hi", [9])]).body = .audio [9] ∧
    (ttsPOST (.valid ⟨some "hi", none⟩) none (.success [1])
        [(cacheKey defaultVoiceId "hi", [9])]).upstreamCalls = 0 := by
  decide

/-- C8: a body that parses is forwarded unmodified to the fixed BI
endpoint with JSON content-negotiation headers, and an upstream success
is relayed verbatim with HTTP 200. -/
theorem bi_forwards_verbatim (b d : Json) :
    biPOST (some b) (.success d) = ⟨200, d, some ⟨BI_ENDPOINT, biHeaders, b⟩⟩ := rfl

/-- C2: the BI gateway's failure taxonomy: no upstream response gives 502
`{ error: "No response from server" }`; an upstream error status is
relayed as that same status with `{ error: "Server error", details }`;
any other local fault (body parse failure, non-axios error) gives 500
`{ error: "Internal server error" }`. -/
theorem bi_error_taxonomy :
    (∀ b : Json, biPOST (some b) .noResponse =
      ⟨502, Json.obj [("error", Json.str "No response from server")],
        some ⟨BI_ENDPOINT, biHeaders, b⟩⟩) ∧
    (∀ (b : Json) (s : Nat) (d : Json), biPOST (some b) (.errorResponse s d) =
      ⟨s, Json.obj [("error", Json.str "Server error"), ("details", d)],
        some ⟨BI_ENDPOINT, biHeaders, b⟩⟩) ∧
    (∀ u : UpstreamBI, biPOST none u =
      ⟨500, Json.obj [("error", Json.str "Internal server error")], none⟩) ∧
    (∀ b : Json, biPOST (some b) .otherFault =
      ⟨500, Json.obj [("error", Json.str "Internal server error")],
        some ⟨BI_ENDPOINT, biHeaders, b⟩⟩) :=
  ⟨fun _ => rfl, fun _ _ _ => rfl, fun _ => rfl, fun _ => rfl⟩

/-- A cache already at the configured maximum, with keys distinct from
any key of the default voice. -/
def fullCache : Cache :=
  (List.range MAX_CACHE_SIZE).map (fun i => ("key" ++ toString i, []))

/-- C1 (amended): for a valid request (non-empty text, credential set,
successful upstream), when the cache is below its 50-entry cap at the
first request, a second identical request within the TTL answers 200
with the identical audio buffer, makes no upstream call, and the two
requests together make at most one upstream call. -/
theorem tts_second_identical_request_cached (req : TTSRequest) (t apiKey : String)
    (audio : AudioBuffer) (c : Cache)
    (htext : req.text = some t) (hne : t ≠ "") (hcap : c.length < MAX_CACHE_SIZE) :
    (ttsPOST (.valid req) (some apiKey) (.success audio)
        (ttsPOST (.valid req) (some apiKey) (.success audio) c).cache).status = 200 ∧
    (ttsPOST (.valid req) (some apiKey) (.success audio)
        (ttsPOST (.valid req) (some apiKey) (.success audio) c).cache).body
      = (ttsPOST (.valid req) (some apiKey) (.success audio) c).body ∧
    (ttsPOST (.valid req) (some apiKey) (.success audio)
        (ttsPOST (.valid req) (some apiKey) (.success audio) c).cache).upstreamCalls = 0 ∧
    (ttsPOST (.valid req) (some apiKey) (.success audio) c).upstreamCalls +
      (ttsPOST (.valid req) (some apiKey) (.success audio)
        (ttsPOST (.valid req) (some apiKey) (.success audio) c).cache).upstreamCalls ≤ 1 := by
  cases hkey : mapGet c (cacheKey (req.voice_id.getD defaultVoiceId) t) with
  | some a =>
    have h1 := ttsPOST_hit req t (some apiKey) (.success audio) c a htext hne hkey
    simp only [h1]
    exact ⟨trivial, trivial, trivial, by decide⟩
  | none =>
    have h1 := ttsPOST_miss_success req t apiKey audio c htext hne hkey
    rw [if_pos hcap] at h1
    have h2 : mapGet (mapSet c (cacheKey (req.voice_id.getD defaultVoiceId) t) audio)
        (cacheKey (req.voice_id.getD defaultVoiceId) t) = some audio :=
      mapGet_mapSet_self c _ audio
    have h3 := ttsPOST_hit req t (some apiKey) (.success audio)
      (mapSet c (cacheKey (req.voice_id.getD defaultVoiceId) t) audio) audio htext hne h2
    simp only [h1, h3]
    exact ⟨trivial, trivial, trivial, by decide⟩

/-- C1 witness: the amended theorem at a concrete input (empty cache,
text `"hi"`, default voice). -/
theorem tts_second_identical_request_cached_witness :
    (ttsPOST (.valid ⟨some "hi", none⟩) (some "key") (.success [3])
        (ttsPOST (.valid ⟨some "hi", none⟩) (some "key") (.success [3]) []).cache).status = 200 ∧
    (ttsPOST (.valid ⟨some "hi", none⟩) (some "key") (.success [3])
        (ttsPOST (.valid ⟨some "hi", none⟩) (some "key") (.success [3]) []).cache).body
      = (ttsPOST (.valid ⟨some "hi", none⟩) (some "key") (.success [3]) []).body ∧
    (ttsPOST (.valid ⟨some "hi", none⟩) (some "key") (.success [3])
        (ttsPOST (.valid ⟨some "hi", none⟩) (some "key") (.success [3]) []).cache).upstreamCalls = 0 ∧
    (ttsPOST (.valid ⟨some "hi", none⟩) (some "key") (.success [3]) []).upstreamCalls +
      (ttsPOST (.valid ⟨some "hi", none⟩) (some "key") (.success [3])
        (ttsPOST (.valid ⟨some "hi", none⟩) (some "key") (.success [3]) []).cache).upstreamCalls ≤ 1 :=
  tts_second_identical_request_cached ⟨some "hi", none⟩ "hi" "key" [3] []
    rfl (by decide) (by decide)

/-- C1 counterexample: with the cache already holding 50 entries, the
first request's result is not cached, so the second identical request
invokes the upstream again: the claim's "the second request does not
invoke the upstream" fails as universally stated. -/
theorem tts_repeat_request_full_cache_reinvokes :
    fullCache.length = MAX_CACHE_SIZE ∧
    (ttsPOST (.valid ⟨some "hello", none⟩) (some "key") (.success [1])
      fullCache).upstreamCalls = 1 ∧
    (ttsPOST (.valid ⟨some "hello", none⟩) (some "key") (.success [1])
      (ttsPOST (.valid ⟨some "hello", none⟩) (some "key") (.success [1])
        fullCache).cache).upstreamCalls = 1 := by
  refine ⟨by decide, by decide, by decide⟩

/-- C3: the cache never exceeds `MAX_CACHE_SIZE` (an entry is stored only
when the current size is strictly below it, and expiry only shrinks the
cache), and a request missing a full cache still succeeds (200 with the
synthesized audio) but is not cached, so running the identical request
again invokes the upstream a second time. -/
theorem tts_cache_bounded :
    (∀ (c : Cache) (e : GatewayEvent),
      c.length ≤ MAX_CACHE_SIZE → (stepCache c e).length ≤ MAX_CACHE_SIZE) ∧
    (∀ (req : TTSRequest) (t apiKey : String) (audio : AudioBuffer) (c : Cache),
      req.text = some t → t ≠ "" →
      mapGet c (cacheKey (req.voice_id.getD defaultVoiceId) t) = none →
      MAX_CACHE_SIZE ≤ c.length →
      ttsPOST (.valid req) (some apiKey) (.success audio) c =
        ⟨200, .audio audio, c, 1⟩ ∧
      (ttsPOST (.valid req) (some apiKey) (.success audio)
        (ttsPOST (.valid req) (some apiKey) (.success audio) c).cache).upstreamCalls = 1) := by
  constructor
  · intro c e h
    cases e with
    | request b k u => exact ttsPOST_cache_length_le b k u c h
    | expire key => exact le_trans (length_mapDelete_le c key) h
  · intro req t apiKey audio c htext hne hkey hfull
    have h1 := ttsPOST_miss_success req t apiKey audio c htext hne hkey
    rw [if_neg (not_lt.mpr hfull)] at h1
    refine ⟨h1, ?_⟩
    simp only [h1]

/-- C3 witness: the bound at a concrete step, and the full-cache
behaviour at a concrete 50-entry cache. -/
theorem tts_cache_bounded_witness :
    (stepCache [] (.expire "k")).length ≤ MAX_CACHE_SIZE ∧
    (ttsPOST (.valid ⟨some "hi", none⟩) (some "key") (.success [1]) fullCache =
      ⟨200, .audio [1], fullCache, 1⟩ ∧
    (ttsPOST (.valid ⟨some "hi", none⟩) (some "key") (.success [1])
      (ttsPOST (.valid ⟨some "hi", none⟩) (some "key") (.success [1])
        fullCache).cache).upstreamCalls = 1) :=
  ⟨tts_cache_bounded.1 [] (.expire "k") (by decide),
   tts_cache_bounded.2 ⟨some "hi", none⟩ "hi" "key" [1] fullCache rfl
     (by decide) (by decide) (by decide)⟩

/-- C9: firing the expiry timer scheduled for a stored entry (after
`CACHE_TTL` = 5 minutes) deletes exactly that entry — its key then
misses while every other key's binding is untouched — so an identical
repeat request afterwards (non-empty text, credential set) invokes the
upstream again, whatever the upstream then answers. -/
theorem tts_ttl_expiry_evicts (c : Cache) (req : TTSRequest) (t apiKey k2 : String)
    (u : UpstreamTTS) (htext : req.text = some t) (hne : t ≠ "")
    (hk2 : k2 ≠ cacheKey (req.voice_id.getD defaultVoiceId) t) :
    CACHE_TTL = 5 * 60 * 1000 ∧
    mapGet (stepCache c (.expire (cacheKey (req.voice_id.getD defaultVoiceId) t)))
      (cacheKey (req.voice_id.getD defaultVoiceId) t) = none ∧
    mapGet (stepCache c (.expire (cacheKey (req.voice_id.getD defaultVoiceId) t))) k2
      = mapGet c k2 ∧
    (ttsPOST (.valid req) (some apiKey) u
      (stepCache c (.expire (cacheKey (req.voice_id.getD defaultVoiceId) t)))).upstreamCalls
      = 1 := by
  simp only [stepCache]
  have hmiss : mapGet (mapDelete c (cacheKey (req.voice_id.getD defaultVoiceId) t))
      (cacheKey (req.voice_id.getD defaultVoiceId) t) = none :=
    mapGet_mapDelete_self c _
  refine ⟨rfl, hmiss, mapGet_mapDelete_ne c _ k2 hk2, ?_⟩
  cases u with
  | success audio =>
    rw [ttsPOST_miss_success req t apiKey audio _ htext hne hmiss]
  | failure s =>
    rw [ttsPOST_miss_failure req t apiKey s _ htext hne hmiss]

/-- C9 witness: the expiry of the entry for text `"hi"` under the
default voice, in a two-entry cache, leaves the other entry intact and
makes the repeat request call upstream. -/
theorem tts_ttl_expiry_evicts_witness :
    CACHE_TTL = 5 * 60 * 1000 ∧
    mapGet (stepCache [(cacheKey defaultVoiceId "hi", [5]), ("other", [7])]
      (.expire (cacheKey defaultVoiceId "hi"))) (cacheKey defaultVoiceId "hi") = none ∧
    mapGet (stepCache [(cacheKey defaultVoiceId "hi", [5]), ("other", [7])]
      (.expire (cacheKey defaultVoiceId "hi"))) "other"
      = mapGet [(cacheKey defaultVoiceId "hi", [5]), ("other", [7])] "other" ∧
    (ttsPOST (.valid ⟨some "hi", none⟩) (some "key") (.success [1])
      (stepCache [(cacheKey defaultVoiceId "hi", [5]), ("other", [7])]
        (.expire (cacheKey defaultVoiceId "hi")))).upstreamCalls = 1 :=
  tts_ttl_expiry_evicts [(cacheKey defaultVoiceId "hi", [5]), ("other", [7])]
    ⟨some "hi", none⟩ "hi" "key" "other" (.success [1]) rfl (by decide) (by decide)
